import Mathlib

/-!
Verification of the CineBot backend (src/backend) against its specification.

The Python sources are shallowly embedded:
  * `intent_classifier.py` : `Intent`, `patternTable`, `classifyWith`,
    `extractEntities` and the concrete scanners that realise the regular
    expressions appearing in `_extract_entities`;
  * `response_generator.py` : `ChatResponse`, the per-intent handlers;
  * `main.py` : the `/chat` endpoint (`chatTurnBody` / `chatTurn`) and the
    per-conversation state (`ConvState`).

Python strings are `String` / `List Char`; floats (TMDb ratings, confidences)
are `ℚ`; Python's `re.search` over the classifier's pattern table is an
uninterpreted parameter `m : String → String → Bool` (the scoring logic never
inspects it), while every regex used by `_extract_entities` and `main.py` is
implemented concretely, character by character, following CPython `re`
backtracking semantics.
-/

namespace CineBot

/-! ### Character classes and basic Python string operations -/

/-- Python's `\s` / `str.strip()` whitespace, ASCII range. -/
def isWsCh (c : Char) : Bool :=
  c = ' ' || c = '\t' || c = '\n' || c = '\r' || c = '\x0b' || c = '\x0c'

/-- ASCII `[A-Z]`, the class used by `re.search(r'[A-Z]', ...)` and
`re.match(r'^[A-Z]', ...)` in `_extract_entities`. -/
def isUpperAZ (c : Char) : Bool := 'A' ≤ c && c ≤ 'Z'

/-- ASCII `[a-z]`. -/
def isLowerAZ (c : Char) : Bool := 'a' ≤ c && c ≤ 'z'

/-- ASCII `[0-9]`. -/
def isDigitCh (c : Char) : Bool := '0' ≤ c && c ≤ '9'

/-- Python's `\w` (ASCII): letters, digits and underscore; determines the
`\b` word boundaries of the year / genre regexes. -/
def isWordCh (c : Char) : Bool := isUpperAZ c || isLowerAZ c || isDigitCh c || c = '_'

/-- ASCII lowering, as applied by `str.lower()` and by `re.I` matching. -/
def lowerCh (c : Char) : Char :=
  if isUpperAZ c then Char.ofNat (c.toNat + 32) else c

/-- `str.strip()` on a character list. -/
def pyStripL (l : List Char) : List Char :=
  ((l.dropWhile isWsCh).reverse.dropWhile isWsCh).reverse

/-- `str.lower()` on a character list. -/
def lowerL (l : List Char) : List Char := l.map lowerCh

/-- `str.split()` with no separator: split on whitespace runs, dropping
empty fields. -/
def pySplitL (l : List Char) : List (List Char) :=
  (l.foldr
    (fun c acc =>
      if isWsCh c then [] :: acc
      else
        match acc with
        | [] => [[c]]
        | w :: ws => (c :: w) :: ws)
    []).filter (· ≠ [])

/-- Python truthiness of an optional string (`None` and `""` are falsy). -/
def pyTruthyS (o : Option String) : Bool :=
  match o with
  | none => false
  | some s => !s.data.isEmpty

/-- `xs[-n:]`: keep the last `n` elements. -/
def pyLastN (n : Nat) (l : List α) : List α := l.drop (l.length - n)

/-- `random.choice` modelled by an oracle index `r` (every element of a
non-empty list is a possible outcome). -/
def pyChoice (r : Nat) (l : List α) (d : α) : α := l.getD (r % max 1 l.length) d

/-- Exact list-prefix test (used for Python's substring operator `in`). -/
def prefixMatch : List Char → List Char → Bool
  | [], _ => true
  | _ :: _, [] => false
  | a :: as, b :: bs => a = b && prefixMatch as bs

/-- Python's substring operator `needle in hay`. -/
def subList (n h : List Char) : Bool :=
  prefixMatch n h ||
    match h with
    | [] => false
    | _ :: t => subList n t

/-- Case-insensitive prefix test against an ASCII-lowercase literal `pat`
(realises `re.I` literal matching). -/
def matchesCI : List Char → List Char → Bool
  | [], _ => true
  | _ :: _, [] => false
  | p :: ps, c :: cs => p = lowerCh c && matchesCI ps cs

/-! ### The regexes of `_extract_entities`, implemented concretely -/

/-- `re.findall(r'"([^"]+)"', message)`, first capture only: the first
double-quoted non-empty span that has a closing quote. -/
def findQuoted : List Char → Option (List Char)
  | [] => none
  | c :: r =>
    if c = '"' then
      let mid := r.takeWhile (· ≠ '"')
      if mid ≠ [] ∧ mid.length < r.length then some mid else findQuoted r
    else findQuoted r

/-- The alternatives of the lead-phrase regex
`(?:tell me about|about|plot of|info on|give me info about|what is|details about|info about)`
in their source order. -/
def tellAboutAlts : List (List Char) :=
  ["tell me about", "about", "plot of", "info on", "give me info about",
   "what is", "details about", "info about"].map String.data

/-- The terminator `(?:\?|$|\.)` of the lead-phrase regex. Python's `$` also
matches just before a final newline. -/
def termAt : List Char → Bool
  | [] => true
  | '?' :: _ => true
  | ['\n'] => true
  | '.' :: _ => true
  | rest => rest = []

/-- The lazy capture `(.+?)` followed by the terminator: grow the capture one
character at a time (each must match `.`, i.e. not be a newline) until the
terminator matches. -/
def capLazy : List Char → List Char → Option (List Char)
  | _, [] => none
  | acc, c :: rest =>
    if c = '\n' then none
    else if termAt rest then some (acc ++ [c])
    else capLazy (acc ++ [c]) rest

/-- Backtracking over `\s+` (greedy, longest first): `run` is the maximal
whitespace run, `w + 1` the number of whitespace characters currently
consumed, `rest` the input after the run. -/
def tryCapW : Nat → List Char → List Char → Option (List Char)
  | 0, _, _ => none
  | Nat.succ w, run, rest =>
    match capLazy [] (run.drop (w + 1) ++ rest) with
    | some cap => some cap
    | none => tryCapW w run rest

/-- Match `\s+(.+?)(?:\?|$|\.)` at the start of `l`. -/
def tellTail (l : List Char) : Option (List Char) :=
  let run := l.takeWhile isWsCh
  tryCapW run.length run (l.drop run.length)

/-- Try each lead-phrase alternative (in source order) at the current
position; on a prefix match attempt the tail with full backtracking. -/
def tryAlts : List (List Char) → List Char → Option (List Char)
  | [], _ => none
  | a :: as, l =>
    if matchesCI a l then
      match tellTail (l.drop a.length) with
      | some cap => some cap
      | none => tryAlts as l
    else tryAlts as l

/-- `re.search` of the full lead-phrase pattern
`(?:tell me about|about|plot of|info on|give me info about|what is|details about|info about)\s+(.+?)(?:\?|$|\.)`
with `re.I`: leftmost position wins, alternatives in source order, returning
the capture `(.+?)`. -/
def tellAboutSearch : List Char → Option (List Char)
  | [] =>
    match tryAlts tellAboutAlts [] with
    | some cap => some cap
    | none => none
  | c :: r =>
    match tryAlts tellAboutAlts (c :: r) with
    | some cap => some cap
    | none => tellAboutSearch r

/-- Word-boundary-delimited alternative match at the current position: the
first alternative that matches (case-insensitively) and is followed by a
non-word character or the end of the input. All alternatives start and end
with word characters, so only the trailing `\b` needs a check here. -/
def wordAltAt : List (List Char) → List Char → Option (List Char)
  | [], _ => none
  | a :: as, l =>
    if matchesCI a l then
      match l.drop a.length with
      | [] => some a
      | c :: _ => if isWordCh c then wordAltAt as l else some a
    else wordAltAt as l

/-- `re.search(r'\b(alt1|alt2|...)\b', s, re.I)`: scan left to right keeping
track of the previous character for the leading `\b`. -/
def wordAltGo (alts : List (List Char)) : Option Char → List Char → Option (List Char)
  | prev, l =>
    let here :=
      if (match prev with | none => true | some c => !isWordCh c) then
        wordAltAt alts l
      else none
    match here with
    | some a => some a
    | none =>
      match l with
      | [] => none
      | c :: r => wordAltGo alts (some c) r

/-- Top-level word-alternative search. -/
def searchWordAlts (alts : List (List Char)) (l : List Char) : Option (List Char) :=
  wordAltGo alts none l

/-- The literal genre names of the single-genre regex in
`_extract_entities`, in source order. -/
def genreAlts : List (List Char) :=
  ["action", "comedy", "drama", "horror", "romance", "sci-fi",
   "science fiction", "thriller", "fantasy", "documentary", "animation",
   "crime", "mystery", "western", "biography", "musical", "adventure",
   "family", "war", "history", "sport"].map String.data

/-- Attempt `\b(19\d{2}|20\d{2})\b` at the current position (trailing
boundary included); on success return the numeric value. -/
def yearAt : List Char → Option Nat
  | d1 :: d2 :: d3 :: d4 :: rest =>
    if ((d1 = '1' && d2 = '9') || (d1 = '2' && d2 = '0'))
        && isDigitCh d3 && isDigitCh d4
        && (match rest with | [] => true | c :: _ => !isWordCh c) then
      some ((d1.toNat - 48) * 1000 + (d2.toNat - 48) * 100 +
            (d3.toNat - 48) * 10 + (d4.toNat - 48))
    else none
  | _ => none

/-- Scan for the first year token, tracking the previous character for the
leading `\b` (digits are word characters). -/
def yearGo : Option Char → List Char → Option Nat
  | prev, l =>
    let here :=
      if (match prev with | none => true | some c => !isWordCh c) then
        yearAt l
      else none
    match here with
    | some y => some y
    | none =>
      match l with
      | [] => none
      | c :: r => yearGo (some c) r

/-- `int(re.findall(r'\b(19\d{2}|20\d{2})\b', message)[0])` when a year token
exists. -/
def yearFind (l : List Char) : Option Nat := yearGo none l

/-- The `genre_patterns` table of `_extract_entities`, in source order: each
canonical genre with the alternatives of its `\b(...)\b` regex. -/
def genrePatternTable : List (String × List String) :=
  [("action", ["action", "adventure", "fight", "battle", "exciting",
               "adrenaline", "fast-paced", "intense", "superhero", "martial arts"]),
   ("comedy", ["comedy", "funny", "humor", "laugh", "hilarious", "comic",
               "witty", "light-hearted", "amusing"]),
   ("drama", ["drama", "dramatic", "emotional", "touching", "heartbreaking",
              "tear-jerker", "serious", "sad"]),
   ("horror", ["horror", "scary", "frightening", "terror", "creepy", "spooky",
               "haunted", "zombie", "ghost"]),
   ("romance", ["romance", "romantic", "love", "relationship", "couple",
                "dating", "wedding", "valentine"]),
   ("sci-fi", ["sci-fi", "science fiction", "futuristic", "space", "alien",
               "robot", "technology", "cyberpunk", "dystopian"]),
   ("thriller", ["thriller", "suspense", "mystery", "psychological", "crime",
                 "detective", "investigation"]),
   ("fantasy", ["fantasy", "magical", "fairy tale", "wizard", "dragon",
                "medieval", "mythical", "supernatural"]),
   ("documentary", ["documentary", "real", "true story", "based on",
                    "biography", "historical", "educational"]),
   ("animation", ["animation", "animated", "cartoon", "pixar", "disney",
                  "anime", "claymation"]),
   ("family", ["family", "kids", "children", "wholesome", "all ages",
               "disney", "pixar"]),
   ("war", ["war", "military", "battle", "soldier", "combat", "wwii",
            "vietnam", "conflict"]),
   ("western", ["western", "cowboy", "wild west", "frontier", "gunfighter",
                "saloon"]),
   ("musical", ["musical", "singing", "songs", "broadway", "opera", "music",
                "dance"])]

/-- The `detected_genres` loop: every canonical genre whose pattern matches
`message.lower()`, in table order. -/
def genresDetect (l : List Char) : List String :=
  genrePatternTable.filterMap fun p =>
    if (searchWordAlts (p.2.map String.data) (lowerL l)).isSome then some p.1
    else none

/-! ### `([A-Z][a-z]+(?: [A-Z][a-z]+){1,2})` — person names -/

/-- `[A-Z][a-z]+`: one capitalized word, returning it and the rest. -/
def nameWord : List Char → Option (List Char × List Char)
  | [] => none
  | c :: r =>
    if isUpperAZ c then
      let low := r.takeWhile isLowerAZ
      if low ≠ [] then some (c :: low, r.drop low.length) else none
    else none

/-- One repetition `(?: [A-Z][a-z]+)`: a single space then a capitalized
word. -/
def repName (l : List Char) : Option (List Char × List Char) :=
  match l with
  | ' ' :: r => (nameWord r).map (fun p => (' ' :: p.1, p.2))
  | _ => none

/-- Match the full name pattern at the current position: first word, then
greedily one or two repetitions (at least one required). -/
def matchName (l : List Char) : Option (List Char × List Char) :=
  (nameWord l).bind fun p1 =>
    match repName p1.2 with
    | some p2 =>
      match repName p2.2 with
      | some p3 => some (p1.1 ++ p2.1 ++ p3.1, p3.2)
      | none => some (p1.1 ++ p2.1, p2.2)
    | none => none

/-- `re.findall` driver: non-overlapping scan, resuming after each match;
`fuel` bounds the number of scan steps (each consumes at least one
character, so the input length suffices). -/
def pnGo : Nat → List Char → List (List Char)
  | 0, _ => []
  | _, [] => []
  | Nat.succ f, c :: r =>
    match matchName (c :: r) with
    | some p => p.1 :: pnGo f p.2
    | none => pnGo f r

/-- `re.findall(r'([A-Z][a-z]+(?: [A-Z][a-z]+){1,2})', message)`. -/
def personNames (l : List Char) : List String :=
  (pnGo l.length l).map fun w => String.mk w

/-! ### The intent enumeration and the entity bag -/

/-- The `Intent` enumeration of `intent_classifier.py`. -/
inductive Intent where
  | greeting
  | recommendation
  | recommend
  | search
  | trivia
  | debate
  | actor_info
  | director_info
  | genre_query
  | year_query
  | rating_query
  | plot_query
  | unknown
  deriving DecidableEq, Repr

/-- `Intent.value`, the string payload of each enum member. -/
def Intent.value : Intent → String
  | .greeting => "greeting"
  | .recommendation => "recommendation"
  | .recommend => "recommend"
  | .search => "search"
  | .trivia => "trivia"
  | .debate => "debate"
  | .actor_info => "actor_info"
  | .director_info => "director_info"
  | .genre_query => "genre_query"
  | .year_query => "year_query"
  | .rating_query => "rating_query"
  | .plot_query => "plot_query"
  | .unknown => "unknown"

/-- The entity dictionary built by `_extract_entities`. A field holding
`none` (resp. `[]` for the list fields) models the key being absent: the
source only ever stores non-empty lists under `genres` / `person_names`.
The `movie_title` field records the key of the same name tested by the
response handlers; `_extract_entities` never writes it. -/
structure EntityBag where
  title : Option String := none
  genre : Option String := none
  year : Option Nat := none
  genres : List String := []
  person_names : List String := []
  movie_title : Option String := none
  deriving DecidableEq, Repr

/-- The lowercase words admitted alongside capitalized words by the
"Pattern 4" standalone-title heuristic. -/
def titleStopWords : List String :=
  ["the", "a", "an", "of", "in", "on", "at", "to", "for", "and", "or"]

/-- The "Pattern 4" word test: first character `str.isupper()` (ASCII here)
or the lowercased word is a stop word. -/
def stopOrCap (w : List Char) : Bool :=
  match w with
  | [] => false
  | c :: _ => isUpperAZ c || (String.mk (lowerL w)) ∈ titleStopWords

/-- `re.match(r'^[A-Z]', s)`: the first character is an ASCII capital. -/
def firstUpper (l : List Char) : Bool :=
  match l with
  | [] => false
  | c :: _ => isUpperAZ c

/-- `IntentClassifier._extract_entities`. Faithful transcription: the quoted
and single-genre scans run first and never return early; a lead-phrase match
returns immediately (overwriting a quoted title and skipping the year,
plural-genre and person-name scans); so do the short-message and
leading-capital heuristics; the year, plural-genre and person-name scans run
only when no early return fired. -/
def extractEntities (message : String) (intent : Intent) : EntityBag :=
  let msg := message.data
  let quotedTitle : Option String := (findQuoted msg).map String.mk
  let genre1 : Option String := (searchWordAlts genreAlts msg).map String.mk
  let wc := (pySplitL msg).length
  match tellAboutSearch msg with
  | some cap => { title := some (String.mk (pyStripL cap)), genre := genre1 }
  | none =>
    if wc ≤ 5 ∧ (intent = Intent.search ∨ wc ≤ 3) ∧ msg.any isUpperAZ then
      { title := some (String.mk (pyStripL msg)), genre := genre1 }
    else if (!pyTruthyS quotedTitle) ∧ firstUpper (pyStripL msg)
        ∧ 1 ≤ wc ∧ wc ≤ 4 then
      { title := some (String.mk (pyStripL msg)), genre := genre1 }
    else
      let title4 : Option String :=
        if (!pyTruthyS quotedTitle) ∧ wc ≤ 4 ∧ pySplitL msg ≠ []
            ∧ (pySplitL msg).all stopOrCap then
          some (String.mk (pyStripL msg))
        else quotedTitle
      { title := title4
        genre := genre1
        year := yearFind msg
        genres := genresDetect msg
        person_names := personNames msg }

/-! ### Structural facts about `extractEntities` -/

/-- The first quoted span found by `findQuoted` is never empty (the regex
class is `[^"]+`). -/
theorem findQuoted_ne_nil : ∀ {l q : List Char}, findQuoted l = some q → q ≠ [] := by
  intro l
  induction l with
  | nil => intro q h; simp [findQuoted] at h
  | cons c r ih =>
    intro q h
    by_cases hc : c = '"'
    · rw [findQuoted, if_pos hc] at h
      by_cases hm : r.takeWhile (· ≠ '"') ≠ [] ∧ (r.takeWhile (· ≠ '"')).length < r.length
      · rw [if_pos hm] at h
        cases h
        exact hm.1
      · rw [if_neg hm] at h
        exact ih h
    · rw [findQuoted, if_neg hc] at h
      exact ih h

/-- `_extract_entities` never writes the key `movie_title`: every exit of the
function stores a candidate title (if any) under `title`. -/
theorem extract_no_movie_title_key (message : String) (intent : Intent) :
    (extractEntities message intent).movie_title = none := by
  unfold extractEntities
  dsimp only
  cases tellAboutSearch message.data with
  | some cap => rfl
  | none =>
    dsimp only
    split
    · rfl
    · split
      · rfl
      · rfl

/-- C10 (universal part): whenever the lead-phrase regex matches, the
stripped capture is the extracted title — the short-message and
capitalization heuristics are never consulted. -/
theorem lead_phrase_wins (message : String) (intent : Intent) (cap : List Char)
    (h : tellAboutSearch message.data = some cap) :
    (extractEntities message intent).title = some (String.mk (pyStripL cap)) := by
  unfold extractEntities
  dsimp only
  rw [h]

/-- Witness for `lead_phrase_wins`: the spec's own example `about The
Matrix?` yields title `The Matrix`, the trailing `?` excluded. -/
theorem lead_phrase_wins_witness :
    tellAboutSearch ("about The Matrix?").data = some ("The Matrix").data ∧
    (extractEntities "about The Matrix?" Intent.unknown).title = some "The Matrix" :=
  ⟨by decide,
   (lead_phrase_wins "about The Matrix?" Intent.unknown ("The Matrix").data
      (by decide)).trans (by decide)⟩

/-- C2 counterexample: on `Tell me about "Inception" please` the lead-phrase
regex also matches and overwrites the quoted title, so extraction yields
`"Inception" please` (quotes included), not `Inception`. -/
theorem quoted_title_loses_counterexample :
    (extractEntities "Tell me about \"Inception\" please" Intent.unknown).title
        = some "\"Inception\" please" ∧
    (extractEntities "Tell me about \"Inception\" please" Intent.unknown).title
        ≠ some "Inception" := by
  constructor
  · decide
  · decide

/-- C2 (amended): the first quoted span is stored as the title first, but a
lead-phrase match or a firing short-message heuristic overwrites it; when
neither fires, the quoted span is the extracted title. -/
theorem quoted_title_wins_without_lead_or_short (message : String) (intent : Intent)
    (q : List Char)
    (hq : findQuoted message.data = some q)
    (hlead : tellAboutSearch message.data = none)
    (hshort : ¬((pySplitL message.data).length ≤ 5 ∧
        (intent = Intent.search ∨ (pySplitL message.data).length ≤ 3) ∧
        message.data.any isUpperAZ)) :
    (extractEntities message intent).title = some (String.mk q) := by
  have hqt : pyTruthyS ((findQuoted message.data).map String.mk) = true := by
    rw [hq]
    cases q with
    | nil => exact absurd rfl (findQuoted_ne_nil hq)
    | cons c cs => rfl
  unfold extractEntities
  dsimp only
  rw [hlead]
  dsimp only
  rw [if_neg hshort]
  rw [if_neg (by rw [hqt]; rintro ⟨h, -⟩; simp at h)]
  rw [if_neg (by rw [hqt]; rintro ⟨h, -⟩; simp at h)]
  rw [hq]
  rfl

/-- Witness for `quoted_title_wins_without_lead_or_short` at a message
where no lead phrase and no short-message heuristic applies. -/
theorem quoted_title_wins_witness :
    findQuoted ("he said \"Heat\" is wonderful").data = some ("Heat").data ∧
    (extractEntities "he said \"Heat\" is wonderful" Intent.unknown).title = some "Heat" :=
  ⟨by decide,
   quoted_title_wins_without_lead_or_short "he said \"Heat\" is wonderful"
     Intent.unknown ("Heat").data (by decide) (by decide) (by decide)⟩

/-- C4 counterexample: `tell me about Heat 1995` contains the qualifying
year token `1995`, yet the lead-phrase title branch returns early and no
`year` entity is produced. -/
theorem year_extraction_skipped_counterexample :
    yearFind ("tell me about Heat 1995").data = some 1995 ∧
    (extractEntities "tell me about Heat 1995" Intent.unknown).year = none := by
  constructor
  · decide
  · decide

/-- C4 (amended): the year, plural-genre and person-name scans run exactly
when no early-returning title branch fired; on those runs they are computed
from the raw text independently of the quoted-title and single-genre
scans. -/
theorem side_fields_extracted_when_no_early_return (message : String) (intent : Intent)
    (hlead : tellAboutSearch message.data = none)
    (hshort : ¬((pySplitL message.data).length ≤ 5 ∧
        (intent = Intent.search ∨ (pySplitL message.data).length ≤ 3) ∧
        message.data.any isUpperAZ))
    (hcap : ¬((!pyTruthyS ((findQuoted message.data).map String.mk))
        ∧ firstUpper (pyStripL message.data)
        ∧ 1 ≤ (pySplitL message.data).length ∧ (pySplitL message.data).length ≤ 4)) :
    (extractEntities message intent).year = yearFind message.data ∧
    (extractEntities message intent).genres = genresDetect message.data ∧
    (extractEntities message intent).person_names = personNames message.data := by
  unfold extractEntities
  dsimp only
  rw [hlead]
  dsimp only
  rw [if_neg hshort, if_neg hcap]
  exact ⟨rfl, rfl, rfl⟩

/-- Witness for `side_fields_extracted_when_no_early_return`: a long
lower-case-initial message with a year token and a name span. -/
theorem side_fields_witness :
    (extractEntities "my favorite star is Tom Hanks since 1994" Intent.unknown).year
        = some 1994 ∧
    (extractEntities "my favorite star is Tom Hanks since 1994" Intent.unknown).person_names
        = ["Tom Hanks"] := by
  have h := side_fields_extracted_when_no_early_return
    "my favorite star is Tom Hanks since 1994" Intent.unknown
    (by decide) (by decide) (by decide)
  exact ⟨h.1.trans (by decide), h.2.2.trans (by decide)⟩

/-! ### The classifier's pattern table and scoring loop

The rule strings below are the exact regex sources of
`IntentClassifier.__init__`, kept as uninterpreted data: `classify` only
asks, for each rule, whether `re.search(rule, message_lower)` found a match,
so the scoring logic is embedded relative to an arbitrary match oracle
`m : String → String → Bool` standing for `re.search`. -/

/-- `self.patterns`: the fixed ordered mapping from intent to rule list. -/
def patternTable : List (Intent × List String) :=
  [(Intent.greeting,
    ["\\b(hi|hello|hey|greetings|good morning|good afternoon|good evening|sup|yo)\\b",
     "^(hi|hello|hey|sup|yo)$",
     "\\b(how are you|what\\\x27s up|whats up)\\b"]),
   (Intent.recommend,
    ["\\b(recommend|suggest|advise|propose|pick for me|choose for me)\\b",
     "\\b(what should i watch|what to watch|something to watch|what\\\x27s good to watch|what\\\x27s popular)\\b",
     "\\b(good movie|great film|best movie|top movie|must-see|worth watching|hidden gem|underrated|overrated)\\b",
     "\\b(movie recommendation|film recommendation|movie list|top picks|favorites)\\b",
     "\\b(movies like|similar to|in the style of|reminds me of|if I liked|if I enjoyed)\\b",
     "\\b(i want to watch|looking for|need something|show me|find me|give me|suggest me)\\b.*\\b(movie|film)\\b",
     "\\b(any suggestions|help me find|got anything|anything fun|anything new|anything trending|anything classic|anything old|anything recent|anything popular)\\b",
     "\\b(i\\\x27m bored|bored|nothing to watch|need entertainment|want to relax|want to laugh|want to cry|want to be scared|want to be inspired)\\b",
     "\\b(tonight|weekend|date night|with friends|family night|movie night|rainy day|sick day|holiday|vacation)\\b.*\\b(movie|watch)\\b",
     "\\b(what\\\x27s good|whats good|anything good|what\\\x27s trending|trending now|new releases|recently released|classic movies|old movies|timeless|iconic|cult classic)\\b",
     "\\b(got any|have any|know any|can you recommend|can you suggest)\\b.*\\b(movie|film)\\b",
     "any good \\w+? films",
     "got any \\w+? movies",
     "what should i watch",
     "what do you recommend",
     "pick a movie for me",
     "give me something to watch",
     "anything worth watching"]),
   (Intent.search,
    ["\\b(find|search|look for|tell me about|info about|details about|show info|show details|show plot|show cast|show director|show rating|show reviews)\\b.*\\b(movie|film|about|on|regarding)\\b",
     "\\b(what is|who is|when was|where was|who stars in|who directed|who made|who created|who acted in|who played|who\\\x27s in|who\\\x27s starring)\\b.*\\b(movie|film|about|on|regarding)\\b",
     "\"([^\"]+)\"",
     "\\b(have you seen|do you know|heard of|tell me about|give me info|give me details|what can you tell me|give me more info|give me more details|what else can you say|elaborate|expand|explain)\\b.*\\b(movie|film|about|on|regarding)\\b",
     "\\b(is there a movie|movie called|film called|movie named|film named)\\b",
     "\\b(who stars in|who directed|who made|who created|who acted in|who played|who\\\x27s in|who\\\x27s starring)\\b.*",
     "\\b(plot of|story of|summary of|synopsis of|what happens in|what is .+ about|what can you tell me about .+)\\b",
     "\\b(who is in .+|who directed .+|when was .+ released|give me details about .+)\\b"]),
   (Intent.trivia,
    ["\\b(trivia|fact|facts|did you know|behind the scenes|interesting|random)\\b",
     "\\b(tell me something|fun fact|movie fact|cool fact|interesting fact|any fun facts|any trivia|any interesting details|any secrets|any easter eggs|any hidden details)\\b",
     "\\b(surprise me|something interesting|blow my mind|anything else|what else|more info|more details|elaborate|expand|explain)\\b",
     "\\b(easter egg|hidden detail|secret)\\b"]),
   (Intent.debate,
    ["\\b(debate|argue|discuss|opinion|think|believe|disagree)\\b",
     "\\b(better than|worse than|compare|vs|versus)\\b",
     "\\b(overrated|underrated|best|worst)\\b",
     "\\b(controversial|unpopular opinion|hot take)\\b",
     "\\b(fight|battle|showdown|face-off)\\b.*\\b(movie|film)\\b"]),
   (Intent.actor_info,
    ["\\b(actor|actress|star|starring|cast|who plays|who stars|who\\\x27s in)\\b",
     "\\b(acted in|appears in|stars in|featured in)\\b",
     "\\b(main character|lead actor|protagonist)\\b"]),
   (Intent.director_info,
    ["\\b(director|directed by|filmmaker|made by|created by)\\b",
     "\\b(who directed|who made|who created)\\b"]),
   (Intent.genre_query,
    ["\\b(action|comedy|drama|horror|romance|sci-fi|science fiction|thriller|fantasy|documentary|animation|crime|mystery|western|biography|musical|adventure|family|war|history|sport)\\b",
     "\\b(funny|hilarious|laugh|humor|comic)\\b",
     "\\b(scary|frightening|terrifying|creepy|spooky)\\b",
     "\\b(romantic|love|relationship|couple|dating)\\b",
     "\\b(exciting|adrenaline|fast-paced|intense)\\b",
     "\\b(sad|emotional|touching|heartbreaking|tear-jerker)\\b",
     "\\b(futuristic|space|alien|robot|technology)\\b",
     "\\b(magical|fantasy|wizard|fairy|mythical)\\b",
     "\\b(real|true story|documentary|based on)\\b",
     "\\b(animated|cartoon|pixar|disney)\\b",
     "\\b(genre|type|category|kind)\\b",
     "\\b(mood for|in the mood|feel like)\\b"]),
   (Intent.year_query,
    ["\\b(year|when|released|came out|made in|from)\\b",
     "\\b(19\\d\x7b2\x7d|20\\d\x7b2\x7d)\\b",
     "\\b(recent|new|latest|old|classic|vintage)\\b",
     "\\b(90s|80s|70s|60s|2000s|2010s|2020s)\\b"]),
   (Intent.rating_query,
    ["\\b(rating|score|imdb|rotten tomatoes|critics|review|reviews)\\b",
     "\\b(good|bad|worth watching|any good)\\b",
     "\\b(popular|highly rated|top rated|best)\\b"]),
   (Intent.plot_query,
    ["\\b(plot|story|about|synopsis|summary|premise)\\b",
     "\\bwhat.*\\b(happens|about|is it)\\b",
     "\\b(storyline|narrative|what\\\x27s it about)\\b"])]

/-- The ordered hit-count dictionary `intent_scores`: an intent enters the
dictionary (in pattern-table order, which is dictionary insertion order)
with the number of its rules that matched, rules that never matched
contributing nothing. -/
def scoresFor (m : String → String → Bool) (message : String) : List (Intent × Nat) :=
  let ml := String.mk (pyStripL (lowerL message.data))
  patternTable.filterMap fun p =>
    let c := (p.2.filter fun pat => m pat ml).length
    if c > 0 then some (p.1, c) else none

/-- One step of Python's `max(keys, key=...)`: keep the current best unless
the next key's score is strictly greater. -/
def stepMax (cur x : Intent × Nat) : Intent × Nat := if x.2 > cur.2 then x else cur

/-- `max(intent_scores.keys(), key=lambda k: intent_scores[k])` paired with
its score: a left fold that keeps the earliest maximum. -/
def pyMaxScores : List (Intent × Nat) → Option (Intent × Nat)
  | [] => none
  | e :: rest => some (rest.foldl stepMax e)

/-- `intent_scores.get(i, 0)`. -/
def scoreOf (scores : List (Intent × Nat)) (i : Intent) : Nat :=
  match scores.find? (fun e => decide (e.1 = i)) with
  | some e => e.2
  | none => 0

/-- `sum(intent_scores.values())`. -/
def sumCounts (scores : List (Intent × Nat)) : Nat := (scores.map Prod.snd).sum

/-- The maximum hit count appearing in the score dictionary (0 when empty). -/
def maxCount (scores : List (Intent × Nat)) : Nat :=
  scores.foldr (fun e a => max e.2 a) 0

/-- The `IntentResult` dataclass; `confidence` (a Python float) is a
rational. -/
structure IntentResult where
  intent : Intent
  confidence : ℚ
  entities : EntityBag
  original_message : String

/-- `IntentClassifier.classify`, parameterized by the `re.search` oracle
`m`: score every rule against the lowercased stripped message, pick the
arg-max (Python `max` keeps the earliest), default to `unknown` when nothing
scored, extract entities, and divide the winner's count by the guarded
total. -/
def classifyWith (m : String → String → Bool) (message : String) : IntentResult :=
  let scores := scoresFor m message
  let best_intent :=
    match pyMaxScores scores with
    | some e => e.1
    | none => Intent.unknown
  let entities := extractEntities message best_intent
  let confidence : ℚ := (scoreOf scores best_intent : ℚ) / ((max 1 (sumCounts scores) : ℕ) : ℚ)
  ⟨best_intent, confidence, entities, message⟩

/-! ### C6, C7, C8: properties of the scoring loop -/

/-- C6: when no rule of any intent category matches, `classify` returns
`unknown` with confidence exactly 0. -/
theorem no_rule_match_unknown_zero (m : String → String → Bool) (message : String)
    (h : ∀ p ∈ patternTable, ∀ pat ∈ p.2,
        m pat (String.mk (pyStripL (lowerL message.data))) = false) :
    (classifyWith m message).intent = Intent.unknown ∧
    (classifyWith m message).confidence = 0 := by
  have hs : scoresFor m message = [] := by
    unfold scoresFor
    dsimp only
    rw [List.filterMap_eq_nil_iff]
    intro p hp
    have hfilter : (p.2.filter fun pat =>
        m pat (String.mk (pyStripL (lowerL message.data)))) = [] := by
      rw [List.filter_eq_nil_iff]
      intro pat hpat
      simp [h p hp pat hpat]
    simp [hfilter]
  unfold classifyWith
  rw [hs]
  exact ⟨rfl, by norm_num [pyMaxScores, scoreOf, sumCounts]⟩

/-- Witness for `no_rule_match_unknown_zero` with the always-false oracle
(no regex in the table matches the message `zz`). -/
theorem no_rule_match_witness :
    (classifyWith (fun _ _ => false) "zz").intent = Intent.unknown ∧
    (classifyWith (fun _ _ => false) "zz").confidence = 0 :=
  no_rule_match_unknown_zero (fun _ _ => false) "zz" (fun _ _ _ _ => rfl)

/-- Every score the dictionary can return is bounded by the total. -/
theorem scoreOf_le_sumCounts (scores : List (Intent × Nat)) (i : Intent) :
    scoreOf scores i ≤ sumCounts scores := by
  induction scores with
  | nil => simp [scoreOf, sumCounts]
  | cons e rest ih =>
    unfold scoreOf sumCounts at *
    rw [List.find?_cons]
    by_cases he : e.1 = i
    · simp [he]
    · simp only [he, decide_eq_true_eq, if_neg, decide_False]
      calc (match rest.find? (fun x => decide (x.1 = i)) with
             | some x => x.2
             | none => 0) ≤ (rest.map Prod.snd).sum := ih
        _ ≤ ((e :: rest).map Prod.snd).sum := by simp

/-- C7: the confidence returned by `classify` always lies in `[0, 1]`. -/
theorem confidence_in_unit_interval (m : String → String → Bool) (message : String) :
    0 ≤ (classifyWith m message).confidence ∧
    (classifyWith m message).confidence ≤ 1 := by
  unfold classifyWith
  dsimp only
  constructor
  · exact div_nonneg (Nat.cast_nonneg _) (Nat.cast_nonneg _)
  · rw [div_le_one (by exact_mod_cast Nat.lt_of_lt_of_le Nat.zero_lt_one (le_max_left 1 _))]
    exact_mod_cast le_trans (scoreOf_le_sumCounts _ _) (le_max_right 1 _)

/-- The left fold of `stepMax` produces a maximal element, and when it moved
past the seed it is the first element of the list reaching its score. -/
theorem foldl_stepMax_spec (rest : List (Intent × Nat)) : ∀ cur : Intent × Nat,
    (∀ x ∈ rest, x.2 ≤ (rest.foldl stepMax cur).2) ∧
    cur.2 ≤ (rest.foldl stepMax cur).2 ∧
    (rest.foldl stepMax cur = cur ∨
      (cur.2 < (rest.foldl stepMax cur).2 ∧
        rest.find? (fun x => decide ((rest.foldl stepMax cur).2 ≤ x.2))
          = some (rest.foldl stepMax cur))) := by
  induction rest with
  | nil => exact fun cur => ⟨by simp, le_refl _, Or.inl rfl⟩
  | cons x rest ih =>
    intro cur
    rw [List.foldl_cons]
    obtain ⟨hAll, hCur, hDisj⟩ := ih (stepMax cur x)
    by_cases hx : x.2 > cur.2
    · have hcur' : stepMax cur x = x := by simp [stepMax, hx]
      rw [hcur'] at hAll hCur hDisj ⊢
      refine ⟨?_, le_of_lt (lt_of_lt_of_le hx hCur), Or.inr ⟨lt_of_lt_of_le hx hCur, ?_⟩⟩
      · intro y hy
        rcases List.mem_cons.mp hy with rfl | hy
        · exact hCur
        · exact hAll y hy
      · rcases hDisj with heq | ⟨hlt, hfind⟩
        · rw [List.find?_cons_of_pos _ (by rw [heq]; simp), heq]
        · rw [List.find?_cons_of_neg _ (by simp [not_le.mpr hlt]), hfind]
    · have hcur' : stepMax cur x = cur := by simp [stepMax, hx]
      rw [hcur'] at hAll hCur hDisj ⊢
      have hxle : x.2 ≤ cur.2 := not_lt.mp hx
      refine ⟨?_, hCur, ?_⟩
      · intro y hy
        rcases List.mem_cons.mp hy with rfl | hy
        · exact le_trans hxle hCur
        · exact hAll y hy
      · rcases hDisj with heq | ⟨hlt, hfind⟩
        · exact Or.inl heq
        · refine Or.inr ⟨hlt, ?_⟩
          rw [List.find?_cons_of_neg _
            (by simp [not_le.mpr (lt_of_le_of_lt hxle hlt)]), hfind]

/-- If two Boolean predicates agree on every member of a list, `find?`
returns the same result for both. -/
theorem find?_pred_congr (l : List α) (p q : α → Bool)
    (h : ∀ x ∈ l, p x = q x) : l.find? p = l.find? q := by
  induction l with
  | nil => rfl
  | cons a t ih =>
    have ha : p a = q a := h a (List.mem_cons_self a t)
    by_cases hq : q a = true
    · rw [List.find?_cons_of_pos _ hq, List.find?_cons_of_pos _ (ha.trans hq)]
    · rw [List.find?_cons_of_neg _ (fun hp => hq (ha ▸ hp)),
        List.find?_cons_of_neg _ hq]
      exact ih fun x hx => h x (List.mem_cons_of_mem a hx)

/-- Elements of the score dictionary are bounded by its maximum count. -/
theorem mem_le_maxCount (scores : List (Intent × Nat)) :
    ∀ x ∈ scores, x.2 ≤ maxCount scores := by
  induction scores with
  | nil => simp
  | cons e rest ih =>
    intro x hx
    rcases List.mem_cons.mp hx with rfl | hx
    · exact le_max_left _ _
    · exact le_trans (ih x hx) (le_max_right _ _)

/-- An upper bound on every count bounds the maximal count. -/
theorem maxCount_le_of_bound (scores : List (Intent × Nat)) (b : Nat)
    (h : ∀ x ∈ scores, x.2 ≤ b) : maxCount scores ≤ b := by
  induction scores with
  | nil => exact Nat.zero_le b
  | cons e rest ih =>
    exact max_le (h e (List.mem_cons_self e rest))
      (ih fun x hx => h x (List.mem_cons_of_mem e hx))

/-- The element picked by Python's `max` is the first element of the list
attaining the maximal count. -/
theorem pyMax_first_max (l : List (Intent × Nat)) (w : Intent × Nat)
    (hw : pyMaxScores l = some w) :
    w.2 = maxCount l ∧ l.find? (fun x => decide (x.2 = maxCount l)) = some w := by
  match l with
  | [] => simp [pyMaxScores] at hw
  | e :: rest =>
    rw [pyMaxScores, Option.some_inj] at hw
    obtain ⟨hAll, hCur, hDisj⟩ := foldl_stepMax_spec rest e
    rw [hw] at hAll hCur hDisj
    have hwmem : w ∈ e :: rest := by
      rcases hDisj with heq | ⟨_, hfind⟩
      · rw [heq]; exact List.mem_cons_self _ _
      · exact List.mem_cons_of_mem _ (List.mem_of_find?_eq_some hfind)
    have hle : w.2 ≤ maxCount (e :: rest) := mem_le_maxCount _ w hwmem
    have hge : maxCount (e :: rest) ≤ w.2 :=
      maxCount_le_of_bound _ _ fun x hx => by
        rcases List.mem_cons.mp hx with rfl | hx
        · exact hCur
        · exact hAll x hx
    have heqmax : w.2 = maxCount (e :: rest) := le_antisymm hle hge
    refine ⟨heqmax, ?_⟩
    rcases hDisj with heq | ⟨hlt, hfind⟩
    · have he2 : e.2 = maxCount (e :: rest) := by
        have hew : e.2 = w.2 := (congrArg Prod.snd heq).symm
        rw [hew, heqmax]
      rw [List.find?_cons_of_pos _ (by simp [he2])]
      exact congrArg some heq.symm
    · rw [List.find?_cons_of_neg _ (by
        have : e.2 ≠ maxCount (e :: rest) := by
          rw [← heqmax]; exact ne_of_lt hlt
        simp [this])]
      rw [← hfind]
      refine find?_pred_congr rest _ _ fun x hx => ?_
      have hxle : x.2 ≤ w.2 := hAll x hx
      by_cases hxeq : x.2 = w.2
      · simp [hxeq, heqmax]
      · have h1 : ¬ x.2 = maxCount (e :: rest) := by rw [← heqmax]; exact hxeq
        have h2 : ¬ w.2 ≤ x.2 := fun hle2 => hxeq (le_antisymm hxle hle2)
        simp [h1, h2]

/-- C8: when two or more intents tie for the maximal rule-hit count,
`classify` returns the tied intent encountered first in the pattern table's
enumeration order — i.e. the winner, paired with the maximal count, is what
`find?` first meets in the (enumeration-ordered) score dictionary. -/
theorem tie_first_in_enumeration (m : String → String → Bool) (message : String)
    (i j : Intent) (hij : i ≠ j)
    (hi : (i, maxCount (scoresFor m message)) ∈ scoresFor m message)
    (hj : (j, maxCount (scoresFor m message)) ∈ scoresFor m message) :
    (scoresFor m message).find?
        (fun e => decide (e.2 = maxCount (scoresFor m message)))
      = some ((classifyWith m message).intent, maxCount (scoresFor m message)) := by
  have hne : scoresFor m message ≠ [] := by
    intro hnil
    rw [hnil] at hi
    exact List.not_mem_nil _ hi
  obtain ⟨w, hw⟩ : ∃ w, pyMaxScores (scoresFor m message) = some w := by
    cases hl : scoresFor m message with
    | nil => exact absurd hl hne
    | cons e rest => exact ⟨_, rfl⟩
  obtain ⟨hw2, hwfind⟩ := pyMax_first_max _ w hw
  have hintent : (classifyWith m message).intent = w.1 := by
    unfold classifyWith
    dsimp only
    rw [hw]
  rw [hintent]
  exact hwfind.trans (by rw [← hw2])

/-- The match oracle for the tie witness: exactly the first greeting rule
and the first debate rule "match". -/
def tieMatcher : String → String → Bool := fun pat _ =>
  decide (pat = "\\b(hi|hello|hey|greetings|good morning|good afternoon|good evening|sup|yo)\\b")
    || decide (pat = "\\b(debate|argue|discuss|opinion|think|believe|disagree)\\b")

/-- Witness for `tie_first_in_enumeration`: greeting and debate tie with one
hit each; greeting, first in the table, wins. -/
theorem tie_first_witness :
    (Intent.greeting, maxCount (scoresFor tieMatcher "x")) ∈ scoresFor tieMatcher "x" ∧
    (Intent.debate, maxCount (scoresFor tieMatcher "x")) ∈ scoresFor tieMatcher "x" ∧
    (scoresFor tieMatcher "x").find?
        (fun e => decide (e.2 = maxCount (scoresFor tieMatcher "x")))
      = some ((classifyWith tieMatcher "x").intent, maxCount (scoresFor tieMatcher "x")) ∧
    (classifyWith tieMatcher "x").intent = Intent.greeting :=
  ⟨by decide, by decide,
   tie_first_in_enumeration tieMatcher "x" Intent.greeting Intent.debate
     (by decide) (by decide) (by decide),
   by decide⟩

/-! ### The movie catalog (`movie_api_service.py`) as an external capability

Response generation only consumes the catalog's results, so the service is
embedded as a record of uninterpreted result functions plus a call log.
`search_movies` results carry exactly the keys built in
`MovieAPIService.search_movies` (note: no `plot`, `cast` or `director` key —
`main.py`'s direct-info template therefore always falls back to its
defaults for those). Float ratings are rationals; their Python string
renderings (`str(x)` and `f"{x:.1f}"`) are abstracted by `fmtFloat` /
`fmtFloat1`. -/

/-- A `search_movies` / recommendation result dictionary. -/
structure Movie where
  id : Nat
  title : String
  year : String
  overview : String
  rating : ℚ
  poster_url : Option String
  genres : List String
  deriving DecidableEq, Repr, Inhabited

/-- One entry of the `cast` list of `get_movie_details`. -/
structure CastMember where
  name : String
  character : String
  deriving DecidableEq, Repr

/-- A `get_movie_details` result dictionary. -/
structure MovieDetails where
  id : Nat
  title : String
  year : String
  overview : String
  runtime : Nat
  rating_tmdb : ℚ
  rating_imdb : Option String
  rating_rt : Option String
  genres : List String
  cast : List CastMember
  director : String
  budget : Nat
  revenue : Nat
  production_companies : List String
  deriving DecidableEq, Repr

/-- An entry of `popular_movies` in a `search_person` result. -/
structure PMovie where
  title : String
  year : String
  character : String
  deriving DecidableEq, Repr

/-- An entry of `directed_movies` in a `search_person` result. -/
structure DMovie where
  title : String
  year : String
  deriving DecidableEq, Repr

/-- A `search_person` result dictionary. -/
structure Person where
  id : Nat
  name : String
  biography : String
  birthday : Option String
  place_of_birth : Option String
  popular_movies : List PMovie
  directed_movies : List DMovie
  deriving DecidableEq, Repr

/-- The `movie_api` capability: result oracles for the five operations the
chat pipeline calls. -/
structure Catalog where
  search_movies : String → Option Nat → Nat → List Movie
  get_movie_details : Nat → Option MovieDetails
  get_genre_recommendations : String → Option (Int × Int) → Nat → List Movie
  get_movie_trivia : Nat → List String
  search_person : String → Option Person

/-- A record of one catalog call with its arguments. -/
inductive CallRec where
  | search_movies (query : String) (year : Option Nat) (limit : Nat)
  | get_movie_details (id : Nat)
  | get_genre_recommendations (genre : String) (yr : Option (Int × Int)) (limit : Nat)
  | get_movie_trivia (id : Nat)
  | search_person (name : String)
  deriving DecidableEq, Repr

/-- Is this call a title search (`movie_api.search_movies`)? -/
def CallRec.isSearchCall : CallRec → Bool
  | .search_movies .. => true
  | _ => false

/-- Abstraction of Python's `str(float)` rendering (no claim depends on
float formatting). -/
def fmtFloat (q : ℚ) : String := toString q

/-- Abstraction of Python's `f"{float:.1f}"` rendering (no claim depends on
float formatting). -/
def fmtFloat1 (q : ℚ) : String := toString q

/-- Python's `str.title()` (ASCII): uppercase each letter that follows a
non-letter, lowercase the other letters. -/
def upperCh (c : Char) : Char :=
  if isLowerAZ c then Char.ofNat (c.toNat - 32) else c

/-- Core of `str.title()`: the flag records whether the previous character
was a letter. -/
def pyTitleL : Bool → List Char → List Char
  | _, [] => []
  | prevAlpha, c :: r =>
    if isUpperAZ c || isLowerAZ c then
      (if prevAlpha then lowerCh c else upperCh c) :: pyTitleL true r
    else c :: pyTitleL false r

/-- `str.title()` on strings. -/
def pyTitle (s : String) : String := String.mk (pyTitleL false s.data)

/-! ### `response_generator.py` -/

/-- The `ChatResponse` payloads (`data` dictionaries) that the handlers can
attach, tagged by shape. -/
inductive Payload where
  | movie (m : Movie)
  | movies (ms : List Movie)
  | moviesGenre (ms : List Movie) (genre : String)
  | movieDetails (d : MovieDetails)
  | person (p : Person)
  | director (p : Person)
  | debateTopic (title question : String) (options : List String)
  | movieDebate (m : Movie)
  deriving DecidableEq, Repr

/-- The `ChatResponse` dataclass. -/
structure ChatResponse where
  content : String
  data : Option Payload := none
  suggestions : Option (List String) := none
  response_type : Option String := none
  deriving DecidableEq, Repr

/-- A debate topic entry of `_handle_debate`'s table. -/
structure DebateTopic where
  title : String
  question : String
  options : List String
  deriving DecidableEq, Repr, Inhabited

/-- `self.greeting_responses`. -/
def greeting_responses : List String :=
  ["Hello! 🎬 I\x27m your movie discovery assistant. I can help you find great films, share movie trivia, or discuss your favorite genres. What are you in the mood for?",
   "Hey there! 🎭 Ready to dive into the world of cinema? I can recommend movies, share fascinating facts, or help you explore new genres. What sounds interesting?",
   "Hi! 🍿 I\x27m here to help you discover amazing movies. Whether you want recommendations, trivia, or just want to chat about films, I\x27m ready! What can I help you with?"]

/-- `self.unknown_responses`. -/
def unknown_responses : List String :=
  ["I\x27m not sure I understood. You can ask for recommendations, trivia, or details about a movie!",
   "Try asking things like: \x27Recommend me a comedy\x27, \x27Tell me about Inception\x27, \x27Who stars in Titanic\x27, or \x27Give me a fun fact about movies.\x27",
   "Need help? Try: \x27What should I watch tonight?\x27, \x27Show me trending movies\x27, \x27Tell me something interesting about movies.\x27"]

/-- The `debate_topics` table of `_handle_debate`. -/
def debate_topics : List DebateTopic :=
  [⟨"Marvel vs DC: Which has better movies?",
    "🦸‍♂️ **Marvel vs DC Debate**\n\nWhich cinematic universe do you think creates better superhero movies and why?",
    ["Marvel has better storytelling", "DC has more depth", "Both are great in different ways"]⟩,
   ⟨"Sequels vs Originals: Do sequels ruin franchises?",
    "🎬 **Sequels Debate**\n\nDo you think sequels generally enhance or diminish the original movie\x27s legacy?",
    ["Sequels often ruin originals", "Good sequels enhance the story", "It depends on the execution"]⟩,
   ⟨"Streaming vs Cinema: Is the theater experience dying?",
    "🎭 **Cinema Experience Debate**\n\nWith streaming platforms, do you think the traditional movie theater experience is still important?",
    ["Nothing beats the cinema", "Streaming is more convenient", "Both have their place"]⟩,
   ⟨"CGI vs Practical Effects: Which creates better movies?",
    "🎨 **Effects Debate**\n\nDo you prefer movies with practical effects or modern CGI, and why?",
    ["Practical effects feel more real", "CGI allows more creativity", "Best when combined well"]⟩]

/-- One numbered movie line of the recommendation/search/genre templates,
with the overview truncated at `cut` characters. -/
def movieLine (i : Nat) (mv : Movie) (cut : Nat) : String :=
  toString i ++ ". **" ++ mv.title ++ "** (" ++ mv.year ++ ") - ⭐ "
    ++ fmtFloat1 mv.rating ++ "/10\n   " ++ mv.overview.take cut ++ "...\n\n"

/-- `for i, movie in enumerate(movies, 1): ...` -/
def enumMovieLinesFrom : Nat → List Movie → Nat → String
  | _, [], _ => ""
  | i, mv :: rest, cut => movieLine i mv cut ++ enumMovieLinesFrom (i + 1) rest cut

/-- Numbered trivia fact lines. -/
def enumFactsFrom : Nat → List String → String
  | _, [] => ""
  | i, f :: r => toString i ++ ". " ++ f ++ "\n\n" ++ enumFactsFrom (i + 1) r

/-- `ResponseGenerator._handle_greeting`. -/
def handle_greeting (r : Nat) : ChatResponse :=
  { content := pyChoice r greeting_responses ""
    suggestions := some
      ["Recommend me a movie", "Tell me some movie trivia",
       "Find action movies from 2023", "What\x27s a good comedy to watch?"] }

/-- `ResponseGenerator._handle_unknown`. -/
def handle_unknown (r : Nat) : ChatResponse :=
  { content := pyChoice r unknown_responses ""
    suggestions := some
      ["Recommend a movie", "Show me trending movies", "Tell me about [movie title]",
       "Who stars in [movie title]", "Tell me movie trivia", "Find movies by genre",
       "Give me a classic movie"] }

/-- `ResponseGenerator._handle_recommendation`. -/
def handle_recommendation (cat : Catalog) (bag : EntityBag) :
    ChatResponse × List CallRec :=
  let genreStep : Option (ChatResponse × List CallRec) :=
    match bag.genres with
    | [] => none
    | genre :: _ =>
      let year_range : Option (Int × Int) :=
        match bag.year with
        | some y => some ((y : Int) - 2, (y : Int) + 2)
        | none => none
      let movies := cat.get_genre_recommendations genre year_range 3
      if movies.isEmpty then none
      else some
        ({ content := "Here are some great " ++ genre ++ " movies I recommend:\n\n"
              ++ enumMovieLinesFrom 1 movies 100
              ++ "Would you like more " ++ genre
              ++ " recommendations or details about any of these movies?"
           data := some (.moviesGenre movies genre)
           suggestions := some
             ["Tell me more about " ++ (movies.headD default).title,
              "More " ++ genre ++ " movies", "Different genre recommendations"]
           response_type := some "recommendations" },
         [.get_genre_recommendations genre year_range 3])
  match genreStep with
  | some out => out
  | none =>
    let log : List CallRec :=
      (match bag.genres with
       | [] => []
       | genre :: _ =>
         [.get_genre_recommendations genre
            (match bag.year with
             | some y => some ((y : Int) - 2, (y : Int) + 2)
             | none => none) 3])
    let popular := cat.get_genre_recommendations "action" none 3
    let log := log ++ [.get_genre_recommendations "action" none 3]
    if popular.isEmpty then
      ({ content := "I\x27d love to recommend some movies! What genre are you interested in? Action, comedy, drama, or something else? 🎬"
         suggestions := some ["Action movies", "Comedy films", "Drama recommendations"]
         response_type := some "recommendations" }, log)
    else
      ({ content := "Here are some popular movies you might enjoy:\n\n"
            ++ enumMovieLinesFrom 1 popular 100
            ++ "What genre are you in the mood for? I can give you more specific recommendations!"
         suggestions := some
           ["Comedy movies", "Horror films", "Romantic movies", "Sci-fi recommendations"]
         response_type := some "recommendations" }, log)

/-- `ResponseGenerator._handle_search`. Note the handler tests the key
`movie_title`, which `_extract_entities` never writes. -/
def handle_search (cat : Catalog) (bag : EntityBag) : ChatResponse × List CallRec :=
  match bag.movie_title with
  | some title =>
    let movies := cat.search_movies title bag.year 3
    let log : List CallRec := [.search_movies title bag.year 3]
    match movies with
    | [mv] =>
      let log := log ++ [.get_movie_details mv.id]
      match cat.get_movie_details mv.id with
      | some details =>
        ({ content := "**" ++ details.title ++ "** (" ++ details.year ++ ")\n\n⭐ Rating: "
              ++ fmtFloat1 details.rating_tmdb ++ "/10 (TMDb)"
              ++ (match details.rating_imdb with
                  | some imdb => " | " ++ imdb ++ "/10 (IMDb)"
                  | none => "")
              ++ "\n\n📽️ **Director:** " ++ details.director ++ "\n"
              ++ "🎭 **Cast:** "
              ++ String.intercalate ", " ((details.cast.take 3).map CastMember.name) ++ "\n"
              ++ "🏷️ **Genres:** " ++ String.intercalate ", " details.genres ++ "\n"
              ++ "⏱️ **Runtime:** " ++ toString details.runtime ++ " minutes\n\n"
              ++ "**Plot:** " ++ details.overview
           data := some (.movieDetails details)
           suggestions := some
             ["Movies like " ++ details.title, "More " ++ details.director ++ " films",
              "Trivia about this movie"] }, log)
      | none =>
        ({ content := "I couldn\x27t find any movies matching \x27" ++ title
              ++ "\x27. Could you check the spelling or try a different title? 🎬" }, log)
    | [] =>
      ({ content := "I couldn\x27t find any movies matching \x27" ++ title
            ++ "\x27. Could you check the spelling or try a different title? 🎬" }, log)
    | movies =>
      ({ content := "I found several movies matching \x27" ++ title ++ "\x27:\n\n"
            ++ enumMovieLinesFrom 1 movies 80 ++ "Which one are you interested in?"
         data := some (.movies movies)
         suggestions := some ((movies.take 3).map fun mv => "Tell me about " ++ mv.title) },
       log)
  | none =>
    ({ content := "What movie are you looking for? Please tell me the title and I\x27ll find it for you! 🔍" },
     [])

/-- The fall-through branch of `_handle_trivia`: random trivia from the
popular action recommendations. It never performs a title search. -/
def trivia_fallback (cat : Catalog) (r : Nat) : ChatResponse × List CallRec :=
  let popular := cat.get_genre_recommendations "action" none 5
  let log : List CallRec := [.get_genre_recommendations "action" none 5]
  match popular with
  | [] =>
    ({ content := "I\x27d love to share some movie trivia! Which movie are you curious about? 🎭"
       response_type := some "trivia" }, log)
  | _ :: _ =>
    let random_movie := pyChoice r popular default
    let trivia := cat.get_movie_trivia random_movie.id
    let log := log ++ [.get_movie_trivia random_movie.id]
    match trivia with
    | fact :: _ =>
      ({ content := "🎬 **Did you know?** (About " ++ random_movie.title ++ ")\n\n" ++ fact
         suggestions := some
           ["More movie trivia", "Tell me about " ++ random_movie.title,
            "Random movie facts"]
         response_type := some "trivia" }, log)
    | [] =>
      ({ content := "I\x27d love to share some movie trivia! Which movie are you curious about? 🎭"
         response_type := some "trivia" }, log)

/-- `ResponseGenerator._handle_trivia`; tests the key `movie_title`. -/
def handle_trivia (cat : Catalog) (r : Nat) (bag : EntityBag) :
    ChatResponse × List CallRec :=
  match bag.movie_title with
  | some title =>
    let movies := cat.search_movies title none 1
    let log : List CallRec := [.search_movies title none 1]
    match movies with
    | mv :: _ =>
      let trivia := cat.get_movie_trivia mv.id
      let log := log ++ [.get_movie_trivia mv.id]
      match trivia with
      | [] =>
        let fb := trivia_fallback cat r
        (fb.1, log ++ fb.2)
      | facts =>
        ({ content := "🎬 **Fun facts about " ++ mv.title ++ ":**\n\n"
              ++ enumFactsFrom 1 facts
           suggestions := some
             ["More about " ++ mv.title, "Random movie trivia", "Movies like " ++ mv.title]
           response_type := some "trivia" }, log)
    | [] =>
      let fb := trivia_fallback cat r
      (fb.1, log ++ fb.2)
  | none => trivia_fallback cat r

/-- Popular-movie lines of `_handle_actor_info`. -/
def popularLines : List PMovie → String
  | [] => ""
  | mv :: rest =>
    "• " ++ mv.title ++ " (" ++ mv.year ++ ")"
      ++ (if mv.character.data.isEmpty then "" else " as " ++ mv.character) ++ "\n"
      ++ popularLines rest

/-- `ResponseGenerator._handle_actor_info`. -/
def handle_actor_info (cat : Catalog) (bag : EntityBag) : ChatResponse × List CallRec :=
  let fallback : ChatResponse :=
    { content := "Which actor are you interested in learning about? Please tell me their name! 🎭" }
  match bag.person_names with
  | [] => (fallback, [])
  | actor_name :: _ =>
    let log : List CallRec := [.search_person actor_name]
    match cat.search_person actor_name with
    | none => (fallback, log)
    | some p =>
      ({ content := "🎭 **" ++ p.name ++ "**\n\n"
            ++ (if p.biography.data.isEmpty then "" else p.biography.take 200 ++ "...\n\n")
            ++ (match p.birthday with
                | some b =>
                  "📅 **Born:** " ++ b
                    ++ (match p.place_of_birth with
                        | some pl => " in " ++ pl
                        | none => "") ++ "\n\n"
                | none => "")
            ++ (match p.popular_movies with
                | [] => ""
                | pm => "🎬 **Popular Movies:**\n" ++ popularLines (pm.take 3))
         data := some (.person p)
         suggestions := some
           ["More " ++ p.name ++ " movies", "Tell me about their latest film",
            "Other popular actors"] }, log)

/-- Directed-film lines of `_handle_director_info`. -/
def directedLines : List DMovie → String
  | [] => ""
  | mv :: rest => "• " ++ mv.title ++ " (" ++ mv.year ++ ")\n" ++ directedLines rest

/-- `ResponseGenerator._handle_director_info`. -/
def handle_director_info (cat : Catalog) (bag : EntityBag) : ChatResponse × List CallRec :=
  let fallback : ChatResponse :=
    { content := "Which director would you like to know about? Please tell me their name! 🎥" }
  match bag.person_names with
  | [] => (fallback, [])
  | director_name :: _ =>
    let log : List CallRec := [.search_person director_name]
    match cat.search_person director_name with
    | none => (fallback, log)
    | some p =>
      if p.directed_movies.isEmpty then (fallback, log)
      else
        ({ content := "🎬 **" ++ p.name ++ "** (Director)\n\n"
              ++ (if p.biography.data.isEmpty then "" else p.biography.take 200 ++ "...\n\n")
              ++ "🎥 **Directed Films:**\n" ++ directedLines (p.directed_movies.take 5)
           data := some (.director p)
           suggestions := some
             ["More " ++ p.name ++ " films", "Tell me about their best movie",
              "Other famous directors"] }, log)

/-- `ResponseGenerator._handle_genre_query`. -/
def handle_genre_query (cat : Catalog) (bag : EntityBag) : ChatResponse × List CallRec :=
  let fallback : ChatResponse :=
    { content := "What genre are you interested in? Action, comedy, horror, romance, sci-fi, or something else? 🎭"
      response_type := some "recommendations" }
  match bag.genres with
  | [] => (fallback, [])
  | genre :: _ =>
    let movies := cat.get_genre_recommendations genre none 5
    let log : List CallRec := [.get_genre_recommendations genre none 5]
    if movies.isEmpty then (fallback, log)
    else
      ({ content := "🎬 **Great " ++ pyTitle genre ++ " Movies:**\n\n"
            ++ enumMovieLinesFrom 1 (movies.take 3) 80
            ++ "Would you like more " ++ genre
            ++ " recommendations or details about any of these?"
         data := some (.moviesGenre movies genre)
         suggestions := some
           ["More " ++ genre ++ " movies", "Best " ++ genre ++ " movies of 2023",
            "Different genre"]
         response_type := some "recommendations" }, log)

/-- `ResponseGenerator._handle_plot_query`; tests the key `movie_title`. -/
def handle_plot_query (cat : Catalog) (bag : EntityBag) : ChatResponse × List CallRec :=
  let fallback : ChatResponse :=
    { content := "Which movie\x27s plot would you like to know about? Please tell me the title! 📖" }
  match bag.movie_title with
  | none => (fallback, [])
  | some title =>
    let movies := cat.search_movies title none 1
    let log : List CallRec := [.search_movies title none 1]
    match movies with
    | [] => (fallback, log)
    | mv :: _ =>
      ({ content := "**" ++ mv.title ++ "** (" ++ mv.year ++ ")\n\n📖 **Plot:** "
            ++ mv.overview
         suggestions := some
           ["Cast of " ++ mv.title, "Movies like " ++ mv.title,
            "More details about this movie"] }, log)

/-- `ResponseGenerator._handle_rating_query`; tests the key `movie_title`. -/
def handle_rating_query (cat : Catalog) (bag : EntityBag) : ChatResponse × List CallRec :=
  let fallback : ChatResponse :=
    { content := "Which movie\x27s rating would you like to know? Please tell me the title! ⭐" }
  match bag.movie_title with
  | none => (fallback, [])
  | some title =>
    let movies := cat.search_movies title none 1
    let log : List CallRec := [.search_movies title none 1]
    match movies with
    | [] => (fallback, log)
    | mv :: _ =>
      let log := log ++ [.get_movie_details mv.id]
      match cat.get_movie_details mv.id with
      | none => (fallback, log)
      | some details =>
        ({ content := "**" ++ details.title ++ "** (" ++ details.year ++ ") Ratings:\n\n"
              ++ "⭐ **TMDb:** " ++ fmtFloat1 details.rating_tmdb ++ "/10\n"
              ++ (match details.rating_imdb with
                  | some imdb => "🎬 **IMDb:** " ++ imdb ++ "/10\n"
                  | none => "")
              ++ (match details.rating_rt with
                  | some rt => "🍅 **Rotten Tomatoes:** " ++ rt ++ "\n"
                  | none => "")
              ++ (if details.rating_tmdb ≥ 8 then "\n🏆 This is considered an excellent movie!"
                  else if details.rating_tmdb ≥ 7 then "\n👍 This is a well-rated movie!"
                  else if details.rating_tmdb ≥ 6 then "\n👌 This movie has decent ratings."
                  else "\n📝 This movie has mixed reviews.")
           suggestions := some
             ["Tell me more about " ++ details.title, "Movies like " ++ details.title,
              "Other highly rated movies"] }, log)

/-- The generic-topic branch of `_handle_debate`: a random entry of the
fixed table, no catalog call. -/
def debate_fallback (r : Nat) : ChatResponse :=
  let topic := pyChoice r debate_topics default
  { content := topic.question
    data := some (.debateTopic topic.title topic.question topic.options)
    suggestions := some (topic.options ++ ["Different debate topic"])
    response_type := some "debate" }

/-- `ResponseGenerator._handle_debate`; tests the key `movie_title`. -/
def handle_debate (cat : Catalog) (r : Nat) (bag : EntityBag) :
    ChatResponse × List CallRec :=
  match bag.movie_title with
  | some title =>
    let movies := cat.search_movies title none 1
    let log : List CallRec := [.search_movies title none 1]
    match movies with
    | mv :: _ =>
      ({ content := "🎬 **Let\x27s debate about " ++ mv.title ++ "!**\n\nThis "
            ++ mv.year ++ " film has a " ++ fmtFloat1 mv.rating ++ "/10 rating. "
            ++ "What\x27s your take on it? Is it overrated, underrated, or perfectly rated?\n\n"
            ++ "**" ++ mv.title ++ "** - What do you think?"
         data := some (.movieDebate mv)
         suggestions := some
           [mv.title ++ " is overrated", mv.title ++ " is underrated",
            mv.title ++ " is perfectly rated", "Compare it to similar movies"]
         response_type := some "debate" }, log)
    | [] => (debate_fallback r, log)
  | none => (debate_fallback r, [])

/-- `ResponseGenerator.generate_response`: enum-keyed dispatch. The
`recommendation` alias and `year_query` have no arm in the source chain and
fall to `_handle_unknown`; the surrounding `try/except` never fires in this
total embedding. -/
def generate_response (cat : Catalog) (r : Nat) (ir : IntentResult) :
    ChatResponse × List CallRec :=
  match ir.intent with
  | .greeting => (handle_greeting r, [])
  | .recommend => handle_recommendation cat ir.entities
  | .search => handle_search cat ir.entities
  | .trivia => handle_trivia cat r ir.entities
  | .debate => handle_debate cat r ir.entities
  | .actor_info => handle_actor_info cat ir.entities
  | .director_info => handle_director_info cat ir.entities
  | .genre_query => handle_genre_query cat ir.entities
  | .plot_query => handle_plot_query cat ir.entities
  | .rating_query => handle_rating_query cat ir.entities
  | _ => (handle_unknown r, [])

/-! ### `main.py`: conversation state and the `/chat` endpoint

Timestamps are dropped (no claim mentions them); the `last_bot_message`
variable computed at the top of `chat_endpoint` is dead code (never read)
and is omitted. The `try/except Exception` wrapping the whole endpoint is
modelled by `chatTurnBody : ... → Except (Nat × String) TurnResult` (the
`raise HTTPException(400, ...)` is the only raise reachable in this total
embedding) and `chatTurn`, which converts any raised exception into the
apology reply — exactly as the blanket `except` clause does. -/

/-- One entry of a conversation's `messages` list: a user record (text,
intent tag, entities) or a bot record (possibly truncated reply text). -/
inductive MsgRec where
  | user (text : String) (intent : String) (entities : EntityBag)
  | bot (text : String)
  deriving DecidableEq, Repr

/-- The per-conversation state held in the `conversations` dictionary. -/
structure ConvState where
  messages : List MsgRec
  recent_titles : List String
  recent_genres : List String
  deriving DecidableEq, Repr

/-- The state created for a conversation id on first contact. -/
def freshConv : ConvState := ⟨[], [], []⟩

/-- The `ChatResponseModel` fields relevant to the pipeline (the echoed
`conversation_id` and the wall-clock `processing_time` are dropped). -/
structure TurnReply where
  response : String
  suggestions : Option (List String)
  data : Option Payload
  intent : String
  response_type : Option String
  deriving DecidableEq, Repr

/-- A full turn outcome: the HTTP-200 reply, the stored state after the
turn, and the catalog calls made. -/
structure TurnResult where
  reply : TurnReply
  state : ConvState
  calls : List CallRec
  deriving DecidableEq, Repr

/-- The fixed list of vague follow-up phrases checked by `chat_endpoint`. -/
def vaguePhrases : List String :=
  ["tell me more about these movies", "tell me more", "more info on these",
   "details on these movies", "what else?", "anything else?", "more info",
   "more details", "elaborate", "expand", "explain"]

/-- The reply produced by the endpoint's `except Exception` clause. -/
def apologyReply : TurnReply :=
  { response := "I\x27m sorry, but I encountered an error processing your request. Please try again! 🎬"
    suggestions := some ["Try a different question", "Search for a movie", "Ask for recommendations"]
    data := none
    intent := "error"
    response_type := none }

/-- The recent-title short-circuit scan: the first recent title that is a
case-insensitive substring of — or superstring containing — the message. -/
def scanRecentTitles (userLower : List Char) (titles : List String) : Option String :=
  titles.find? fun t =>
    subList userLower (lowerL t.data) || subList (lowerL t.data) userLower

/-- The direct movie-info reply template of `chat_endpoint`. Search results
carry no `plot`, `cast` or `director` keys (see `MovieAPIService`), so the
plot default is always used and the cast/director lines never appear. -/
def movieInfoReply (mv : Movie) : TurnReply :=
  { response := "🎬 **" ++ mv.title ++ "** (" ++ mv.year ++ ")\n\n**Rating:** "
      ++ fmtFloat mv.rating ++ "/10\n\n**Plot:** Plot information not available.\n\n"
    suggestions := some
      ["More movies like " ++ mv.title, "Trivia about " ++ mv.title,
       "Recommend something else"]
    data := some (.movie mv)
    intent := "movie_info"
    response_type := some "movie_info" }

/-- The body of `chat_endpoint` for one conversation: strip and reject the
empty message, classify, try the direct movie-info short-circuit (lead
phrase, else recent-title match on a ≤3-word message), else the vague
follow-up short-circuit, else the normal path (context update, user record,
truncation to 10, response generation, bot record). -/
def chatTurnBody (m : String → String → Bool) (cat : Catalog) (r : Nat)
    (st : ConvState) (message : String) : Except (Nat × String) TurnResult :=
  let user := String.mk (pyStripL message.data)
  if user.data.isEmpty then Except.error (400, "Message cannot be empty")
  else
    let ir := classifyWith m user
    let mt : Option String :=
      match tellAboutSearch user.data with
      | some cap => some (String.mk (pyStripL cap))
      | none =>
        if (pySplitL user.data).length ≤ 3 then
          scanRecentTitles (lowerL user.data) st.recent_titles
        else none
    let normal : List CallRec → Except (Nat × String) TurnResult := fun pre =>
      let es := ir.entities
      let titles2 :=
        if pyTruthyS es.title then pyLastN 5 (st.recent_titles ++ [es.title.getD ""])
        else st.recent_titles
      let genres2 :=
        if pyTruthyS es.genre then pyLastN 5 (st.recent_genres ++ [es.genre.getD ""])
        else st.recent_genres
      let msgs1 := pyLastN 10 (st.messages ++ [MsgRec.user user ir.intent.value es])
      let rc := generate_response cat r ir
      let bot :=
        if rc.1.content.length > 100 then rc.1.content.take 100 ++ "..."
        else rc.1.content
      Except.ok
        ⟨⟨rc.1.content, rc.1.suggestions, rc.1.data, ir.intent.value, rc.1.response_type⟩,
         ⟨msgs1 ++ [MsgRec.bot bot], titles2, genres2⟩, pre ++ rc.2⟩
    let vague : Except (Nat × String) TurnResult :=
      if String.mk (lowerL user.data) ∈ vaguePhrases then
        if pyTruthyS ir.entities.title then normal []
        else if !st.recent_titles.isEmpty then
          Except.ok
            ⟨⟨"Would you like more details about one of these movies: "
                ++ String.intercalate ", " st.recent_titles
                ++ "? Please specify the title! 📖",
              some (st.recent_titles.map fun t => "Tell me about " ++ t),
              none, "clarification", none⟩, st, []⟩
        else if !st.recent_genres.isEmpty then
          Except.ok
            ⟨⟨"Are you interested in more movies from these genres: "
                ++ String.intercalate ", " st.recent_genres
                ++ "? You can ask for recommendations or details! 🎬",
              some (st.recent_genres.map fun g => "Recommend more " ++ g ++ " movies"),
              none, "clarification", none⟩, st, []⟩
        else
          Except.ok
            ⟨⟨"Which movie or genre would you like to know more about? Please specify! 📖",
              none, none, "clarification", none⟩, st, []⟩
      else normal []
    match mt with
    | some q =>
      if q.data.isEmpty then vague
      else
        match cat.search_movies q none 1 with
        | mv :: _ => Except.ok ⟨movieInfoReply mv, st, [CallRec.search_movies q none 1]⟩
        | [] => normal [CallRec.search_movies q none 1]
    | none => vague

/-- `chat_endpoint` as seen by the caller: the `except Exception` clause
turns any raised error into the apology reply (state untouched). -/
def chatTurn (m : String → String → Bool) (cat : Catalog) (r : Nat)
    (st : ConvState) (message : String) : TurnResult :=
  match chatTurnBody m cat r st message with
  | Except.ok res => res
  | Except.error _ => ⟨apologyReply, st, []⟩

/-- Conversation states reachable from a fresh conversation by chat turns
(with arbitrary match oracle, catalog behavior, randomness and messages). -/
inductive Reachable : ConvState → Prop where
  | init : Reachable freshConv
  | step (m : String → String → Bool) (cat : Catalog) (r : Nat) (message : String)
      {s : ConvState} (h : Reachable s) : Reachable (chatTurn m cat r s message).state

/-! ### C1: the `title` / `movie_title` key mismatch -/

/-- The trivia fall-through path never performs a title search. -/
theorem trivia_fallback_no_search (cat : Catalog) (r : Nat) :
    ∀ c ∈ (trivia_fallback cat r).2, c.isSearchCall = false := by
  unfold trivia_fallback
  dsimp only
  cases hpop : cat.get_genre_recommendations "action" none 5 with
  | nil =>
    intro c hc
    rcases List.mem_singleton.mp hc with rfl
    rfl
  | cons mv rest =>
    dsimp only
    cases htr : cat.get_movie_trivia (pyChoice r (mv :: rest) default).id with
    | nil =>
      intro c hc
      rcases List.mem_cons.mp hc with rfl | hc
      · rfl
      · rcases List.mem_singleton.mp hc with rfl
        rfl
    | cons f fs =>
      intro c hc
      rcases List.mem_cons.mp hc with rfl | hc
      · rfl
      · rcases List.mem_singleton.mp hc with rfl
        rfl

/-- C1: the extractor stores the extracted title under `title` and never
under `movie_title`, while the Search, Trivia, PlotQuery, RatingQuery and
Debate handlers test `movie_title`; hence on every extractor-produced bag
each of these handlers takes its no-title branch — the fixed clarifying
question (search/plot/rating), the generic random-trivia path, or the
generic debate topic — and never issues a title search for the extracted
title (no `search_movies` call at all). -/
theorem extractor_movie_title_mismatch (message : String) (it : Intent)
    (cat : Catalog) (r : Nat) :
    (extractEntities message it).movie_title = none ∧
    handle_search cat (extractEntities message it) =
      ({ content := "What movie are you looking for? Please tell me the title and I\x27ll find it for you! 🔍" }, []) ∧
    handle_trivia cat r (extractEntities message it) = trivia_fallback cat r ∧
    (∀ c ∈ (handle_trivia cat r (extractEntities message it)).2, c.isSearchCall = false) ∧
    handle_plot_query cat (extractEntities message it) =
      ({ content := "Which movie\x27s plot would you like to know about? Please tell me the title! 📖" }, []) ∧
    handle_rating_query cat (extractEntities message it) =
      ({ content := "Which movie\x27s rating would you like to know? Please tell me the title! ⭐" }, []) ∧
    handle_debate cat r (extractEntities message it) = (debate_fallback r, []) := by
  have hmt := extract_no_movie_title_key message it
  have htrivia : handle_trivia cat r (extractEntities message it) = trivia_fallback cat r := by
    unfold handle_trivia
    rw [hmt]
  refine ⟨hmt, ?_, htrivia, ?_, ?_, ?_, ?_⟩
  · unfold handle_search
    rw [hmt]
  · rw [htrivia]
    exact trivia_fallback_no_search cat r
  · unfold handle_plot_query
    rw [hmt]
  · unfold handle_rating_query
    rw [hmt]
  · unfold handle_debate
    rw [hmt]

/-! ### C3: rolling-window bounds of the conversation state -/

/-- `xs[-n:]` never keeps more than `n` elements. -/
theorem pyLastN_length_le (n : Nat) (l : List α) : (pyLastN n l).length ≤ n := by
  unfold pyLastN
  rw [List.length_drop]
  omega

/-- One chat turn preserves the (amended) bounds: the rolling windows stay
within 5 and the message log within 11 — the endpoint truncates to the last
10 messages after appending the user record but appends the bot record
afterwards without re-truncating. -/
theorem chatTurnBody_state_bounds (m : String → String → Bool) (cat : Catalog) (r : Nat)
    (s : ConvState) (message : String)
    (h1 : s.recent_titles.length ≤ 5) (h2 : s.recent_genres.length ≤ 5)
    (h3 : s.messages.length ≤ 11) :
    ∀ res, chatTurnBody m cat r s message = Except.ok res →
      res.state.recent_titles.length ≤ 5 ∧ res.state.recent_genres.length ≤ 5 ∧
      res.state.messages.length ≤ 11 := by
  intro res h
  unfold chatTurnBody at h
  dsimp only at h
  repeat' split at h
  all_goals first
    | exact Except.noConfusion h
    | (injection h with h
       subst h
       dsimp only
       refine ⟨?_, ?_, ?_⟩ <;>
         first
           | exact pyLastN_length_le 5 _
           | exact h1
           | exact h2
           | exact h3
           | (rw [List.length_append, List.length_singleton]
              exact le_trans (Nat.add_le_add_right (pyLastN_length_le 10 _) 1) (by omega)))

/-- One chat turn preserves the (amended) bounds: the rolling windows stay
within 5 and the message log within 11 — the endpoint truncates to the last
10 messages after appending the user record but appends the bot record
afterwards without re-truncating. -/
theorem chatTurn_state_bounds (m : String → String → Bool) (cat : Catalog) (r : Nat)
    (s : ConvState) (message : String)
    (h1 : s.recent_titles.length ≤ 5) (h2 : s.recent_genres.length ≤ 5)
    (h3 : s.messages.length ≤ 11) :
    (chatTurn m cat r s message).state.recent_titles.length ≤ 5 ∧
    (chatTurn m cat r s message).state.recent_genres.length ≤ 5 ∧
    (chatTurn m cat r s message).state.messages.length ≤ 11 := by
  unfold chatTurn
  cases hb : chatTurnBody m cat r s message with
  | ok res => exact chatTurnBody_state_bounds m cat r s message h1 h2 h3 res hb
  | error e => exact ⟨h1, h2, h3⟩

/-- C3 (amended): in every reachable conversation state, `recent_titles`
and `recent_genres` have at most 5 entries and `messages` at most 11 (not
10: the bot record is appended after the truncation to 10). -/
theorem conv_state_bounds {s : ConvState} (h : Reachable s) :
    s.recent_titles.length ≤ 5 ∧ s.recent_genres.length ≤ 5 ∧
    s.messages.length ≤ 11 := by
  induction h with
  | init => exact ⟨Nat.le_refl 0 |>.trans (by omega), by simp [freshConv], by simp [freshConv]⟩
  | step m cat r message h ih =>
    exact chatTurn_state_bounds m cat r _ message ih.1 ih.2.1 ih.2.2

/-- Witness for `conv_state_bounds` at the initial state. -/
theorem conv_state_bounds_witness :
    freshConv.recent_titles.length ≤ 5 ∧ freshConv.recent_genres.length ≤ 5 ∧
    freshConv.messages.length ≤ 11 :=
  conv_state_bounds Reachable.init

/-- A match oracle under which no rule matches (truthful for the messages
used in the concrete runs below, which no rule of the table matches). -/
def noMatch : String → String → Bool := fun _ _ => false

/-- A catalog that finds nothing (its behavior is irrelevant to the runs
below, which never reach a catalog call). -/
def emptyCatalog : Catalog :=
  ⟨fun _ _ _ => [], fun _ => none, fun _ _ _ => [], fun _ => [], fun _ => none⟩

/-- One normal-path turn on the message `zz` (no entities, unknown intent). -/
def demoStep (s : ConvState) : ConvState :=
  (chatTurn noMatch emptyCatalog 0 s "zz").state

/-- C3 counterexample: after six normal turns from a fresh conversation the
stored message log holds 11 entries — the claimed bound of 10 is violated
by the bot record appended after the truncation. The state is reachable. -/
theorem messages_exceed_ten_counterexample :
    Reachable (demoStep (demoStep (demoStep (demoStep (demoStep (demoStep freshConv)))))) ∧
    (demoStep (demoStep (demoStep (demoStep (demoStep (demoStep freshConv)))))).messages.length = 11 := by
  constructor
  · exact Reachable.step _ _ _ _ (Reachable.step _ _ _ _ (Reachable.step _ _ _ _
      (Reachable.step _ _ _ _ (Reachable.step _ _ _ _ (Reachable.step _ _ _ _
        Reachable.init)))))
  · decide

/-! ### C5: the empty message and the blanket `except` -/

/-- C5 (what the code does): the endpoint raises the 400 for an empty or
whitespace-only message, but the surrounding `except Exception` catches its
own `HTTPException`, so the caller receives the HTTP-200 apology reply
instead of a bad-request signal. -/
theorem empty_message_returns_apology_not_400 (m : String → String → Bool)
    (cat : Catalog) (r : Nat) (s : ConvState) (message : String)
    (h : pyStripL message.data = []) :
    chatTurnBody m cat r s message = Except.error (400, "Message cannot be empty") ∧
    chatTurn m cat r s message = ⟨apologyReply, s, []⟩ := by
  have hempty : (String.mk (pyStripL message.data)).data.isEmpty = true := by
    rw [h]
    rfl
  have hbody : chatTurnBody m cat r s message =
      Except.error (400, "Message cannot be empty") := by
    unfold chatTurnBody
    rw [if_pos hempty]
  refine ⟨hbody, ?_⟩
  unfold chatTurn
  rw [hbody]

/-- Witness for `empty_message_returns_apology_not_400` at `""` and at a
whitespace-only message. -/
theorem empty_message_witness :
    chatTurn noMatch emptyCatalog 0 freshConv "" = ⟨apologyReply, freshConv, []⟩ ∧
    chatTurnBody noMatch emptyCatalog 0 freshConv "   " =
      Except.error (400, "Message cannot be empty") :=
  ⟨(empty_message_returns_apology_not_400 noMatch emptyCatalog 0 freshConv ""
      (by decide)).2,
   (empty_message_returns_apology_not_400 noMatch emptyCatalog 0 freshConv "   "
      (by decide)).1⟩

/-! ### C9: the vague follow-up clarification -/

/-- The entities of a classification are extracted from the message with
the winning intent. -/
theorem classify_entities (m : String → String → Bool) (message : String) :
    (classifyWith m message).entities =
      extractEntities message (classifyWith m message).intent := by
  unfold classifyWith
  rfl

/-- `tell me more` yields no title under any intent. -/
theorem tell_me_more_no_title (it : Intent) :
    (extractEntities "tell me more" it).title = none := by
  cases it <;> decide

/-- C9: with `recent_titles = ["Inception", "Titanic"]`, the exact message
`tell me more` (whatever the classifier's oracle and the catalog do)
returns the clarification reply with suggestions exactly
`["Tell me about Inception", "Tell me about Titanic"]`, makes no catalog
call, and leaves the state unchanged. -/
theorem vague_followup_clarification (m : String → String → Bool) (cat : Catalog)
    (r : Nat) (ms : List MsgRec) (gs : List String) :
    chatTurn m cat r ⟨ms, ["Inception", "Titanic"], gs⟩ "tell me more" =
      ⟨⟨"Would you like more details about one of these movies: Inception, Titanic? Please specify the title! 📖",
        some ["Tell me about Inception", "Tell me about Titanic"],
        none, "clarification", none⟩,
       ⟨ms, ["Inception", "Titanic"], gs⟩, []⟩ := by
  unfold chatTurn chatTurnBody
  have huser : String.mk (pyStripL ("tell me more").data) = "tell me more" := by decide
  rw [huser]
  have htitle : pyTruthyS (classifyWith m "tell me more").entities.title = false := by
    rw [classify_entities, tell_me_more_no_title]
    rfl
  dsimp only
  rw [if_neg (by decide : ¬("tell me more").data.isEmpty = true)]
  rw [show tellAboutSearch ("tell me more").data = none from by decide]
  dsimp only
  rw [if_pos (by decide : (pySplitL ("tell me more").data).length ≤ 3)]
  rw [show scanRecentTitles (lowerL ("tell me more").data) ["Inception", "Titanic"] = none
    from by decide]
  dsimp only
  rw [if_pos (by decide : String.mk (lowerL ("tell me more").data) ∈ vaguePhrases)]
  rw [htitle]
  rfl

end CineBot
